import Mathlib

/-!
Verification of the `/api/sale` payment handler of the BT-Sample
repository (the full handler in `src/generate-report.js`, lines 416-599:
request validation, transaction-spec construction, result normalization
and response composition), against its natural-language specification.

JavaScript objects sent back through `res.json` are modelled by a small
JSON value type; object properties whose value is `undefined` are omitted
by the serializer, which the model reflects by leaving the field out of
the field list.  Machine numbers are modelled by `ℚ`; the string/number
coercions (`Number`, `parseFloat`, `toFixed`) are modelled on the decimal
fragment actually exercised by the handler (signed decimal literals and
whitespace -- hex, exponent and `Infinity` forms are outside the model).
-/

namespace BTSample

/-- JSON-like values: the shape of the objects the handler builds and
`res.json` serialises.  `obj` keeps fields in insertion order. -/
inductive Json where
  | null : Json
  | bool : Bool → Json
  | str : String → Json
  | num : ℚ → Json
  | obj : List (String × Json) → Json

/-- First value bound to key `k` in a JSON object, `none` otherwise. -/
def Json.lookup : Json → String → Option Json
  | .obj fs, k => fs.lookup k
  | _, _ => none

/-- The keys of a JSON object, in order. -/
def Json.keys : Json → List String
  | .obj fs => fs.map Prod.fst
  | _ => []

/-- JS truthiness of an optional string-valued field: `undefined` and the
empty string are falsy, every other string is truthy. -/
def truthy : Option String → Bool
  | some s => !(s == "")
  | none => false

/-- `v || d` on an optional string, as used for defaulting name fields. -/
def jsOr (v : Option String) (d : String) : String :=
  match v with
  | some s => if s == "" then d else s
  | none => d

/-! ### JavaScript number coercion (decimal fragment) -/

/-- JS whitespace, restricted to the common forms. -/
def isWs (c : Char) : Bool :=
  c == ' ' || c == '\t' || c == '\n' || c == '\r'

/-- Value of a list of decimal digit characters. -/
def digitsToNat (ds : List Char) : Nat :=
  ds.foldl (fun n c => 10 * n + (c.toNat - '0'.toNat)) 0

/-- Parse an unsigned decimal literal (`digits`, `digits.digits?`, or
`.digits`) from the front of a character list; returns its value and the
unconsumed rest. -/
def parseUnsignedDecimal (l : List Char) : Option (ℚ × List Char) :=
  let intDs := l.takeWhile Char.isDigit
  let r1 := l.dropWhile Char.isDigit
  match r1 with
  | '.' :: r2 =>
      let fracDs := r2.takeWhile Char.isDigit
      let r3 := r2.dropWhile Char.isDigit
      if intDs.isEmpty && fracDs.isEmpty then none
      else
        some (mkRat (digitsToNat intDs * 10 ^ fracDs.length
                       + digitsToNat fracDs) (10 ^ fracDs.length), r3)
  | _ =>
      if intDs.isEmpty then none
      else some ((digitsToNat intDs : ℚ), r1)

/-- Parse an optionally signed decimal literal from the front of a
character list. -/
def parseSignedDecimal (l : List Char) : Option (ℚ × List Char) :=
  match l with
  | '-' :: r => (parseUnsignedDecimal r).map (fun qr => (-qr.1, qr.2))
  | '+' :: r => parseUnsignedDecimal r
  | _ => parseUnsignedDecimal l

/-- Model of JS `Number(s)` string coercion (used implicitly by the global
`isNaN`), on the decimal fragment: leading/trailing whitespace is ignored,
a whitespace-only string coerces to `0`, and otherwise the whole remainder
must be one signed decimal literal; anything else is NaN (`none`). -/
def jsStringToNumber (s : String) : Option ℚ :=
  let l := s.data.dropWhile isWs
  if l.isEmpty then some 0
  else
    match parseSignedDecimal l with
    | some (q, rest) => if (rest.dropWhile isWs).isEmpty then some q else none
    | none => none

/-- Model of JS `parseFloat(s)` on the decimal fragment: skip leading
whitespace, take the longest signed-decimal-literal prefix, ignore the
rest; NaN (`none`) when no literal starts the string. -/
def jsParseFloat (s : String) : Option ℚ :=
  (parseSignedDecimal (s.data.dropWhile isWs)).map Prod.fst

/-- Two-digit zero-padded rendering of `k < 100`. -/
def pad2 (k : Nat) : String :=
  if k < 10 then "0" ++ toString k else toString k

/-- `n` hundredths rendered as `intpart.dd`. -/
def formatCents (n : Nat) : String :=
  toString (n / 100) ++ "." ++ pad2 (n % 100)

/-- For a non-negative `q = num/den` in lowest terms, the integer nearest
`100 * q`, ties to the larger integer: that is
`⌊100q + 1/2⌋ = ⌊(200 num + den) / (2 den)⌋`, computed by natural
division. -/
def roundCents (q : ℚ) : Nat :=
  (200 * q.num.toNat + q.den) / (2 * q.den)

/-- The sign-split magnitude of ECMA toFixed step 7: a negative argument
contributes a leading `-` and is replaced by its negation. -/
def jsMag (q : ℚ) : ℚ :=
  if q < 0 then -q else q

/-- ECMA ToString for a number of magnitude at least `10^21` renders in
exponential notation `d[.ddd]e+n`.  Doubles of that magnitude are whole
numbers (their spacing exceeds 1 above `2^53`), so the significand
digits are the integer value's decimal digits with trailing zeros
removed, and the exponent is one less than the digit count. -/
def jsLargeToString (x : ℚ) : String :=
  let ds := (toString (x.num.toNat / x.den)).data
  let sig := (ds.reverse.dropWhile (fun c => c == '0')).reverse
  (match sig with
   | [] => "0"
   | [c] => String.mk [c]
   | c :: rest => String.mk [c] ++ "." ++ String.mk rest)
    ++ "e+" ++ toString (ds.length - 1)

/-- Model of `x.toFixed(2)` for a finite number, per ECMA: a negative
argument contributes a sign and is replaced by its magnitude `x`; when
`x >= 10^21` the method falls back to `ToString(x)` (exponential
notation); below that, the scaled value is rounded to the integer
nearest `x * 100`, ties to the larger integer, and rendered in fixed
notation.  The threshold test `10^21 * den <= num` is the comparison
`10^21 <= x` on the reduced fraction. -/
def toFixed2 (q : ℚ) : String :=
  (if q < 0 then "-" else "")
    ++ (if 1000000000000000000000 * ((jsMag q).den : Int) ≤ (jsMag q).num then
          jsLargeToString (jsMag q)
        else formatCents (roundCents (jsMag q)))

/-- `|q| < 10^21`: the range in which toFixed renders fixed-point
notation (stated on the reduced fraction). -/
def belowFixedLimit (q : ℚ) : Bool :=
  (jsMag q).num < 1000000000000000000000 * ((jsMag q).den : Int)

/-! ### The request model -/

/-- The `amount` member of the request body: absent, a JSON string, or a
JSON number (JSON numbers are finite, so no NaN case arises here). -/
inductive AmountField where
  | absent : AmountField
  | str : String → AmountField
  | num : ℚ → AmountField
deriving DecidableEq

/-- JS truthiness of the amount value (`!amount` is its negation):
`undefined`, `""` and `0` are falsy. -/
def AmountField.truthyA : AmountField → Bool
  | absent => false
  | .str s => !(s == "")
  | .num q => !(q == 0)

/-- `isNaN(amount)`: the global `isNaN` coerces with `Number`;
`Number(undefined)` is NaN. -/
def AmountField.jsIsNaN : AmountField → Bool
  | absent => true
  | .str s => (jsStringToNumber s).isNone
  | .num _ => false

/-- `parseFloat(amount)`: `parseFloat` stringifies its argument first; a
finite number round-trips to itself and `parseFloat(String(undefined))`
is NaN (`none`). -/
def AmountField.jsParseFloatA : AmountField → Option ℚ
  | absent => none
  | .str s => jsParseFloat s
  | .num q => some q

/-- `parseFloat(amount).toFixed(2)`; `NaN.toFixed(2)` is the string
`"NaN"`. -/
def amountToFixed2 (a : AmountField) : String :=
  match a.jsParseFloatA with
  | some q => toFixed2 q
  | none => "NaN"

/-- The two name members of the request's billing address that the
handler reads (the remaining address members are copied through
untouched and never inspected). -/
structure BillingAddress where
  firstName : Option String
  lastName : Option String
deriving DecidableEq

/-- The members the handler destructures from the POST /api/sale body.
`vaultPaymentMethod` is reduced to its JS truthiness. -/
structure SaleRequest where
  paymentMethodNonce : Option String
  amount : AmountField
  billingAddress : Option BillingAddress
  vaultPaymentMethod : Bool
  cardholderName : Option String
  paymentMethodType : Option String
deriving DecidableEq

/-! ### Validation (src/generate-report.js lines 426-432) -/

inductive ValidationFailure where
  | missingNonce : ValidationFailure
  | invalidAmount : ValidationFailure
deriving DecidableEq

/-- The handler's early-return validation: `!paymentMethodNonce` rejects
first; then `!amount || isNaN(amount) || parseFloat(amount) <= 0`
rejects the amount (note `NaN <= 0` is false in JS, modelled by the
`none` arm). -/
def validateRequest (req : SaleRequest) : Option ValidationFailure :=
  if !(truthy req.paymentMethodNonce) then some .missingNonce
  else if !req.amount.truthyA || req.amount.jsIsNaN
          || (match req.amount.jsParseFloatA with
              | some q => decide (q ≤ 0)
              | none => false) then some .invalidAmount
  else none

/-! ### Transaction-spec construction (src/generate-report.js lines 435-469) -/

/-- The synthesised `customer` member of the transaction data. -/
structure CustomerData where
  firstName : String
  lastName : String
deriving DecidableEq

/-- The `options` member of the transaction data;
`storeInVaultOnSuccess` is only ever assigned (to `true`) when vaulting
is requested, so absence is modelled by `none`. -/
structure TransactionOptions where
  submitForSettlement : Bool
  storeInVaultOnSuccess : Option Bool
deriving DecidableEq

/-- The object passed to `gateway.transaction.sale`. -/
structure TransactionData where
  amount : String
  paymentMethodNonce : String
  options : TransactionOptions
  billing : Option BillingAddress
  customer : Option CustomerData
deriving DecidableEq

/-- The transaction specification the handler builds: amount fixed to two
decimals, settlement always requested, billing copied when provided, and
on vaulting a customer synthesised from the billing address names with a
hard-coded `{firstName:'PayPal', lastName:'Customer'}` fallback when no
billing address was sent. -/
def buildTransactionData (req : SaleRequest) : TransactionData :=
  { amount := amountToFixed2 req.amount
    paymentMethodNonce := req.paymentMethodNonce.getD ""
    options :=
      { submitForSettlement := true
        storeInVaultOnSuccess := if req.vaultPaymentMethod then some true else none }
    billing := req.billingAddress
    customer :=
      if req.vaultPaymentMethod then
        some (match req.billingAddress with
          | some addr =>
              { firstName := jsOr addr.firstName "Customer"
                lastName := jsOr addr.lastName "" }
          | none => { firstName := "PayPal", lastName := "Customer" })
      else none }

/-! ### The gateway outcome (TransactionOutcome) -/

/-- The credit-card instrument sub-object, fields as read by the handler;
unset sub-fields are `none`. -/
structure CreditCardDetails where
  token : Option String
  maskedNumber : Option String
  cardType : Option String
deriving DecidableEq

/-- The PayPal instrument sub-object, fields as read by the handler. -/
structure PaypalDetails where
  token : Option String
  implicitlyVaultedPaymentMethodToken : Option String
  payerEmail : Option String
deriving DecidableEq

/-- The Venmo instrument sub-object, fields as read by the handler. -/
structure VenmoDetails where
  token : Option String
  username : Option String
deriving DecidableEq

/-- The Google Pay (androidPayCard) instrument sub-object, fields as read
by the handler. -/
structure AndroidPayCardDetails where
  token : Option String
  last4 : Option String
  cardType : Option String
deriving DecidableEq

/-- The gateway customer record attached to a vaulted transaction. -/
structure CustomerRecord where
  id : String
deriving DecidableEq

/-- `result.transaction` of a gateway outcome: core fields plus the four
optional instrument sub-objects and the optional customer. -/
structure TransactionRecord where
  id : String
  status : String
  amount : String
  creditCard : Option CreditCardDetails
  paypal : Option PaypalDetails
  venmoAccount : Option VenmoDetails
  androidPayCard : Option AndroidPayCardDetails
  customer : Option CustomerRecord
deriving DecidableEq

/-- A resolved gateway outcome: `success`, the transaction (read only on
success) and the decline `message` (read only on failure). -/
structure SaleResult where
  success : Bool
  transaction : TransactionRecord
  message : String
deriving DecidableEq

/-! ### Result normalization (src/generate-report.js lines 494-583) -/

/-- One optional serialised field: `res.json` drops a property whose
value is `undefined`, so a `none` sub-field contributes nothing. -/
def optField (k : String) : Option String → List (String × Json)
  | some s => [(k, .str s)]
  | none => []

/-- The PayPal sub-object as serialised into the response's
`transaction.paypal` echo. -/
def PaypalDetails.toJson (p : PaypalDetails) : Json :=
  .obj (optField "token" p.token
        ++ optField "implicitlyVaultedPaymentMethodToken"
             p.implicitlyVaultedPaymentMethodToken
        ++ optField "payerEmail" p.payerEmail)

/-- `result.transaction.creditCard && result.transaction.creditCard.token` -/
def ccVaulted (t : TransactionRecord) : Bool :=
  match t.creditCard with
  | some c => truthy c.token
  | none => false

/-- `result.transaction.paypal && result.transaction.paypal.token` -/
def paypalVaulted (t : TransactionRecord) : Bool :=
  match t.paypal with
  | some p => truthy p.token
  | none => false

/-- `result.transaction.venmoAccount && result.transaction.venmoAccount.token` -/
def venmoVaulted (t : TransactionRecord) : Bool :=
  match t.venmoAccount with
  | some v => truthy v.token
  | none => false

/-- `result.transaction.androidPayCard && result.transaction.androidPayCard.token` -/
def androidPayVaulted (t : TransactionRecord) : Bool :=
  match t.androidPayCard with
  | some a => truthy a.token
  | none => false

/-- `result.transaction.customer ? result.transaction.customer.id : null` -/
def customerIdJson (c : Option CustomerRecord) : Json :=
  match c with
  | some cust => .str cust.id
  | none => .null

/-- `let token = paypal.token; if (paypal.implicitlyVaultedPaymentMethodToken)
token = paypal.implicitlyVaultedPaymentMethodToken;` -/
def paypalChosenToken (p : PaypalDetails) : Option String :=
  if truthy p.implicitlyVaultedPaymentMethodToken then
    p.implicitlyVaultedPaymentMethodToken
  else p.token

/-- The credit-card variant of `response.vaultedPaymentMethod`. -/
def ccVaultJson (c : CreditCardDetails) (cust : Option CustomerRecord) : Json :=
  .obj (optField "token" c.token
        ++ optField "maskedNumber" c.maskedNumber
        ++ optField "cardType" c.cardType
        ++ [("customerId", customerIdJson cust)])

/-- The PayPal variant of `response.vaultedPaymentMethod`. -/
def paypalVaultJson (p : PaypalDetails) (cust : Option CustomerRecord) : Json :=
  .obj (optField "token" (paypalChosenToken p)
        ++ optField "email" p.payerEmail
        ++ [("paymentType", .str "PayPal"),
            ("customerId", customerIdJson cust)])

/-- The Venmo variant of `response.vaultedPaymentMethod`. -/
def venmoVaultJson (v : VenmoDetails) (cust : Option CustomerRecord) : Json :=
  .obj (optField "token" v.token
        ++ optField "username" v.username
        ++ [("paymentType", .str "Venmo"),
            ("customerId", customerIdJson cust)])

/-- The Google Pay variant of `response.vaultedPaymentMethod` (its
`maskedNumber` is taken from the sub-object's `last4`). -/
def androidPayVaultJson (a : AndroidPayCardDetails) (cust : Option CustomerRecord) : Json :=
  .obj (optField "token" a.token
        ++ optField "maskedNumber" a.last4
        ++ optField "cardType" a.cardType
        ++ [("paymentType", .str "Google Pay"),
            ("customerId", customerIdJson cust)])

/-- `response.vaultedPaymentMethod`, produced by the sequential if/else
chain over the instrument sub-objects (credit card, then PayPal, then
Venmo, then Google Pay); `none` when no branch fires. -/
def vaultedPaymentMethod (t : TransactionRecord) : Option Json :=
  if ccVaulted t then
    t.creditCard.map (fun c => ccVaultJson c t.customer)
  else if paypalVaulted t then
    t.paypal.map (fun p => paypalVaultJson p t.customer)
  else if venmoVaulted t then
    t.venmoAccount.map (fun v => venmoVaultJson v t.customer)
  else if androidPayVaulted t then
    t.androidPayCard.map (fun a => androidPayVaultJson a t.customer)
  else none

/-! ### Response composition (src/generate-report.js lines 482-491, 585-599) -/

/-- The `transaction` object of the success response: id, status, amount,
and the raw PayPal sub-object echo (`paypal: result.transaction.paypal`,
dropped by `res.json` when that sub-object is `undefined`). -/
def transactionJson (t : TransactionRecord) : Json :=
  .obj ([("id", .str t.id), ("status", .str t.status), ("amount", .str t.amount)]
        ++ (match t.paypal with
            | some p => [("paypal", p.toJson)]
            | none => []))

/-- The full JSON body sent on a successful outcome. -/
def successResponse (t : TransactionRecord) : Json :=
  .obj ([("success", .bool true), ("transaction", transactionJson t)]
        ++ (match vaultedPaymentMethod t with
            | some v => [("vaultedPaymentMethod", v)]
            | none => []))

/-- An HTTP response: status code and JSON body. -/
structure HttpResponse where
  status : Nat
  body : Json

/-- Observable outcome of one call to the handler: the response sent and
whether `gateway.transaction.sale` was invoked. -/
structure HandlerOutcome where
  response : HttpResponse
  gatewayCalled : Bool

/-- The POST /api/sale handler, with the gateway round trip abstracted as
a parameter: `.error e` models `gateway.transaction.sale` throwing the
raw error `e` (caught by the catch block), `.ok r` models it resolving
with outcome `r`. -/
def handleSale (req : SaleRequest) (gw : Except Json SaleResult) : HandlerOutcome :=
  match validateRequest req with
  | some .missingNonce =>
      ⟨⟨400, .obj [("error", .str "Payment method nonce is required")]⟩, false⟩
  | some .invalidAmount =>
      ⟨⟨400, .obj [("error", .str "Valid amount is required")]⟩, false⟩
  | none =>
      match gw with
      | .error _ =>
          ⟨⟨500, .obj [("success", .bool false),
                       ("error", .str "Failed to process payment")]⟩, true⟩
      | .ok result =>
          if result.success then
            ⟨⟨200, successResponse result.transaction⟩, true⟩
          else
            ⟨⟨400, .obj [("success", .bool false),
                         ("error", .str result.message)]⟩, true⟩

/-! ### Shape predicates and claim-side definitions -/

/-- The characters after the last `.` of `s`, in order (all of `s` when
`s` has no `.`; the companion `hasExactlyTwoDecimalDigits` additionally
requires a `.` to be present). -/
def fracPart (s : String) : List Char :=
  (s.data.reverse.takeWhile (fun c => !(c == '.'))).reverse

/-- `s` ends in a `.`-separated fraction part of exactly two decimal
digits. -/
def hasExactlyTwoDecimalDigits (s : String) : Bool :=
  s.data.any (fun c => c == '.') && (fracPart s).length == 2
    && (fracPart s).all Char.isDigit

/-- The customer claim C4 predicts when vaulting without a billing
address, following the claim's words: an instrument of type `T` yields a
"T Customer"-style name.  Stated spec-side for comparison; the source has
no such derivation (its fallback is hard-coded). -/
def claimFallbackCustomer (paymentMethodType : String) : CustomerData :=
  { firstName := paymentMethodType, lastName := "Customer" }

/-! ### Concrete requests and outcomes used in witnesses and
counterexamples -/

/-- Vaulting request with no billing address and a Venmo type hint. -/
def reqVenmoNoAddr : SaleRequest :=
  ⟨some "fake-venmo-nonce", .str "25", none, true, none, some "Venmo"⟩

/-- Vaulting request with a billing address. -/
def reqVaulted : SaleRequest :=
  ⟨some "fake-valid-nonce", .str "25", some ⟨some "Jane", some "Doe"⟩,
   true, none, none⟩

/-- Plain non-vaulting request. -/
def reqPlain : SaleRequest :=
  ⟨some "fake-valid-nonce", .str "25", none, false, none, none⟩

/-- Request whose amount is a whitespace-only string. -/
def reqWhitespaceAmount : SaleRequest :=
  ⟨some "fake-valid-nonce", .str "   ", none, false, none, none⟩

/-- Request whose amount is the decimal literal for `10^21` (exactly
representable as a double). -/
def reqHugeAmount : SaleRequest :=
  ⟨some "fake-valid-nonce", .str "1000000000000000000000", none, false,
   none, none⟩

/-- A populated credit-card sub-object. -/
def ccSample : CreditCardDetails :=
  ⟨some "cc-tok-1", some "411111******1111", some "Visa"⟩

/-- A populated PayPal sub-object without an implicit-vault token. -/
def ppSample : PaypalDetails :=
  ⟨some "pp-tok-1", none, some "payer@example.com"⟩

/-- A populated PayPal sub-object carrying an implicit-vault token. -/
def ppImplicit : PaypalDetails :=
  ⟨some "pp-primary-tok", some "pp-implicit-tok", some "payer2@example.com"⟩

/-- Successful transaction with both a credit-card and a PayPal
sub-object populated. -/
def txBoth : TransactionRecord :=
  ⟨"t-both", "submitted_for_settlement", "25.00",
   some ccSample, some ppSample, none, none, none⟩

/-- Successful PayPal transaction (no implicit-vault token). -/
def txPaypal : TransactionRecord :=
  ⟨"t-pp", "settling", "25.00", none, some ppSample, none, none,
   some ⟨"cust-1"⟩⟩

/-- Successful PayPal transaction with an implicit-vault token. -/
def txImplicit : TransactionRecord :=
  ⟨"t-imp", "settling", "30.00", none, some ppImplicit, none, none,
   some ⟨"cust-2"⟩⟩

/-- Successful credit-card transaction with a customer record. -/
def txCC : TransactionRecord :=
  ⟨"t-cc", "submitted_for_settlement", "25.00", some ccSample, none,
   none, none, some ⟨"cust-3"⟩⟩

/-! ## Shared lemmas -/

/-- Branch characterization of the normalizer's sequential if/else
chain. -/
theorem vaultedPaymentMethod_cases (t : TransactionRecord) :
    (ccVaulted t = true →
       vaultedPaymentMethod t
         = t.creditCard.map (fun c => ccVaultJson c t.customer))
    ∧ (ccVaulted t = false → paypalVaulted t = true →
       vaultedPaymentMethod t
         = t.paypal.map (fun p => paypalVaultJson p t.customer))
    ∧ (ccVaulted t = false → paypalVaulted t = false → venmoVaulted t = true →
       vaultedPaymentMethod t
         = t.venmoAccount.map (fun v => venmoVaultJson v t.customer))
    ∧ (ccVaulted t = false → paypalVaulted t = false → venmoVaulted t = false →
       androidPayVaulted t = true →
       vaultedPaymentMethod t
         = t.androidPayCard.map (fun a => androidPayVaultJson a t.customer))
    ∧ (ccVaulted t = false → paypalVaulted t = false → venmoVaulted t = false →
       androidPayVaulted t = false → vaultedPaymentMethod t = none) :=
  ⟨fun h1 => by simp [vaultedPaymentMethod, h1],
   fun h1 h2 => by simp [vaultedPaymentMethod, h1, h2],
   fun h1 h2 h3 => by simp [vaultedPaymentMethod, h1, h2, h3],
   fun h1 h2 h3 h4 => by simp [vaultedPaymentMethod, h1, h2, h3, h4],
   fun h1 h2 h3 h4 => by simp [vaultedPaymentMethod, h1, h2, h3, h4]⟩

/-- The credit-card variant always carries a customerId field. -/
theorem ccVaultJson_customerId (c : CreditCardDetails)
    (cust : Option CustomerRecord) :
    Json.lookup (ccVaultJson c cust) "customerId" = some (customerIdJson cust) := by
  rcases c with ⟨tk, mn, ct⟩
  rcases tk with _ | tk <;> rcases mn with _ | mn <;> rcases ct with _ | ct <;> rfl

/-- The credit-card variant carries no paymentType field. -/
theorem ccVaultJson_no_paymentType (c : CreditCardDetails)
    (cust : Option CustomerRecord) :
    Json.lookup (ccVaultJson c cust) "paymentType" = none := by
  rcases c with ⟨tk, mn, ct⟩
  rcases tk with _ | tk <;> rcases mn with _ | mn <;> rcases ct with _ | ct <;> rfl

/-- The PayPal variant always carries a customerId field. -/
theorem paypalVaultJson_customerId (p : PaypalDetails)
    (cust : Option CustomerRecord) :
    Json.lookup (paypalVaultJson p cust) "customerId" = some (customerIdJson cust) := by
  rcases p with ⟨tk, iv, em⟩
  rcases h : paypalChosenToken ⟨tk, iv, em⟩ with _ | s <;> rw [paypalVaultJson, h] <;>
    rcases em with _ | em <;> rfl

/-- The PayPal variant is tagged paymentType 'PayPal'. -/
theorem paypalVaultJson_paymentType (p : PaypalDetails)
    (cust : Option CustomerRecord) :
    Json.lookup (paypalVaultJson p cust) "paymentType" = some (.str "PayPal") := by
  rcases p with ⟨tk, iv, em⟩
  rcases h : paypalChosenToken ⟨tk, iv, em⟩ with _ | s <;> rw [paypalVaultJson, h] <;>
    rcases em with _ | em <;> rfl

/-- The Venmo variant always carries a customerId field. -/
theorem venmoVaultJson_customerId (v : VenmoDetails)
    (cust : Option CustomerRecord) :
    Json.lookup (venmoVaultJson v cust) "customerId" = some (customerIdJson cust) := by
  rcases v with ⟨tk, un⟩
  rcases tk with _ | tk <;> rcases un with _ | un <;> rfl

/-- The Venmo variant is tagged paymentType 'Venmo'. -/
theorem venmoVaultJson_paymentType (v : VenmoDetails)
    (cust : Option CustomerRecord) :
    Json.lookup (venmoVaultJson v cust) "paymentType" = some (.str "Venmo") := by
  rcases v with ⟨tk, un⟩
  rcases tk with _ | tk <;> rcases un with _ | un <;> rfl

/-- The Google Pay variant always carries a customerId field. -/
theorem androidPayVaultJson_customerId (a : AndroidPayCardDetails)
    (cust : Option CustomerRecord) :
    Json.lookup (androidPayVaultJson a cust) "customerId"
      = some (customerIdJson cust) := by
  rcases a with ⟨tk, l4, ct⟩
  rcases tk with _ | tk <;> rcases l4 with _ | l4 <;> rcases ct with _ | ct <;> rfl

/-- The Google Pay variant is tagged paymentType 'Google Pay'. -/
theorem androidPayVaultJson_paymentType (a : AndroidPayCardDetails)
    (cust : Option CustomerRecord) :
    Json.lookup (androidPayVaultJson a cust) "paymentType"
      = some (.str "Google Pay") := by
  rcases a with ⟨tk, l4, ct⟩
  rcases tk with _ | tk <;> rcases l4 with _ | l4 <;> rcases ct with _ | ct <;> rfl

/-! ## Claims -/

/-- C9: for every request (whatever its fields), the transaction
specification the Builder produces has `options.submitForSettlement =
true`; no request yields an authorization-only spec. -/
theorem c9_submitForSettlement_always (req : SaleRequest) :
    (buildTransactionData req).options.submitForSettlement = true := rfl

/-- C3: the Builder's output has a customer field iff
`storeInVaultOnSuccess` is true: `vaultPaymentMethod` true yields
`storeInVaultOnSuccess = true` together with a non-null customer, and
absent/false yields a spec with neither. -/
theorem c3_customer_iff_vault (req : SaleRequest) :
    ((buildTransactionData req).customer.isSome
       ↔ (buildTransactionData req).options.storeInVaultOnSuccess = some true)
    ∧ (req.vaultPaymentMethod = true →
        (buildTransactionData req).options.storeInVaultOnSuccess = some true
          ∧ (buildTransactionData req).customer.isSome = true)
    ∧ (req.vaultPaymentMethod = false →
        (buildTransactionData req).options.storeInVaultOnSuccess = none
          ∧ (buildTransactionData req).customer = none) := by
  rcases h : req.vaultPaymentMethod <;> simp [buildTransactionData, h]

/-- Witness for C3 at a concrete vaulting request. -/
theorem c3_customer_iff_vault_witness :
    (buildTransactionData reqVaulted).options.storeInVaultOnSuccess = some true
      ∧ (buildTransactionData reqVaulted).customer.isSome = true :=
  (c3_customer_iff_vault reqVaulted).2.1 rfl

/-- C1: the Normalizer follows the fixed priority order credit card,
PayPal, Venmo, Google Pay: the first instrument sub-object present with a
truthy (non-empty) token wins, later ones are ignored, and with no truthy
sub-object it yields none.  In particular a populated credit-card
sub-object beats a populated PayPal sub-object. -/
theorem c1_priority_order (t : TransactionRecord) :
    (ccVaulted t = true →
       vaultedPaymentMethod t
         = t.creditCard.map (fun c => ccVaultJson c t.customer))
    ∧ (ccVaulted t = false → paypalVaulted t = true →
       vaultedPaymentMethod t
         = t.paypal.map (fun p => paypalVaultJson p t.customer))
    ∧ (ccVaulted t = false → paypalVaulted t = false → venmoVaulted t = true →
       vaultedPaymentMethod t
         = t.venmoAccount.map (fun v => venmoVaultJson v t.customer))
    ∧ (ccVaulted t = false → paypalVaulted t = false → venmoVaulted t = false →
       androidPayVaulted t = true →
       vaultedPaymentMethod t
         = t.androidPayCard.map (fun a => androidPayVaultJson a t.customer))
    ∧ (ccVaulted t = false → paypalVaulted t = false → venmoVaulted t = false →
       androidPayVaulted t = false → vaultedPaymentMethod t = none) :=
  vaultedPaymentMethod_cases t

/-- Witness for C1 at an outcome with both a credit-card and a PayPal
sub-object populated: the credit-card variant wins. -/
theorem c1_priority_order_witness :
    ccVaulted txBoth = true
      ∧ vaultedPaymentMethod txBoth
          = txBoth.creditCard.map (fun c => ccVaultJson c txBoth.customer) :=
  ⟨rfl, (c1_priority_order txBoth).1 rfl⟩

/-- C8: when the gateway call throws, the handler answers 500 with the
fixed generic payload `{success: false, error: 'Failed to process
payment'}`; the response is a constant, so no field of the raw gateway
error ever reaches the caller. -/
theorem c8_gateway_error_opaque (req : SaleRequest) (e : Json)
    (h : validateRequest req = none) :
    handleSale req (.error e)
      = ⟨⟨500, .obj [("success", .bool false),
                     ("error", .str "Failed to process payment")]⟩, true⟩ := by
  simp [handleSale, h]

/-- Witness for C8 at a concrete request and a concrete raw gateway
error object. -/
theorem c8_gateway_error_opaque_witness :
    handleSale reqPlain (.error (.obj [("name", .str "authenticationError")]))
      = ⟨⟨500, .obj [("success", .bool false),
                     ("error", .str "Failed to process payment")]⟩, true⟩ :=
  c8_gateway_error_opaque reqPlain
    (.obj [("name", .str "authenticationError")]) rfl

/-- C2: in the Normalizer's PayPal branch (no credit-card data won
first), for a PayPal sub-object with a truthy (non-empty) primary token:
a truthy implicitlyVaultedPaymentMethodToken becomes the returned token,
and with no implicit token the primary token is returned. -/
theorem c2_implicit_vault_preferred (t : TransactionRecord)
    (p : PaypalDetails) (tok : String) (hcc : ccVaulted t = false)
    (hp : t.paypal = some p) (htok : p.token = some tok) (hne : tok ≠ "") :
    (∀ iv : String, p.implicitlyVaultedPaymentMethodToken = some iv → iv ≠ "" →
       (vaultedPaymentMethod t).bind (fun j => Json.lookup j "token")
         = some (.str iv))
    ∧ (p.implicitlyVaultedPaymentMethodToken = none →
       (vaultedPaymentMethod t).bind (fun j => Json.lookup j "token")
         = some (.str tok)) := by
  have hpv : paypalVaulted t = true := by
    simp [paypalVaulted, hp, truthy, htok, hne]
  have hv := (vaultedPaymentMethod_cases t).2.1 hcc hpv
  rw [hp] at hv
  constructor
  · intro iv hiv hivne
    rw [hv]
    simp [paypalVaultJson, paypalChosenToken, truthy, hiv, hivne, optField,
          Json.lookup]
  · intro hnone
    rw [hv]
    simp [paypalVaultJson, paypalChosenToken, truthy, hnone, htok, optField,
          Json.lookup]

/-- Witness for C2: at a concrete outcome carrying both a primary and an
implicit PayPal token, the implicit one is returned; at one with only a
primary token, the primary one is. -/
theorem c2_implicit_vault_preferred_witness :
    (vaultedPaymentMethod txImplicit).bind (fun j => Json.lookup j "token")
        = some (.str "pp-implicit-tok")
      ∧ (vaultedPaymentMethod txPaypal).bind (fun j => Json.lookup j "token")
          = some (.str "pp-tok-1") :=
  ⟨(c2_implicit_vault_preferred txImplicit ppImplicit "pp-primary-tok" rfl rfl
      rfl (by decide)).1 "pp-implicit-tok" rfl (by decide),
   (c2_implicit_vault_preferred txPaypal ppSample "pp-tok-1" rfl rfl
      rfl (by decide)).2 rfl⟩

/-- C10: whenever the Normalizer produces a vaulted-payment-method
object, that object carries a customerId field, the gateway customer id
or null; the PayPal, Venmo and Google Pay variants carry their
paymentType tags while the credit-card variant carries no paymentType
field at all. -/
theorem c10_variant_tagging (t : TransactionRecord) (j : Json)
    (h : vaultedPaymentMethod t = some j) :
    Json.lookup j "customerId" = some (customerIdJson t.customer)
    ∧ (ccVaulted t = true → Json.lookup j "paymentType" = none)
    ∧ (ccVaulted t = false → paypalVaulted t = true →
        Json.lookup j "paymentType" = some (.str "PayPal"))
    ∧ (ccVaulted t = false → paypalVaulted t = false → venmoVaulted t = true →
        Json.lookup j "paymentType" = some (.str "Venmo"))
    ∧ (ccVaulted t = false → paypalVaulted t = false → venmoVaulted t = false →
        androidPayVaulted t = true →
        Json.lookup j "paymentType" = some (.str "Google Pay")) := by
  by_cases h1 : ccVaulted t = true
  · have hv := (vaultedPaymentMethod_cases t).1 h1
    rw [h] at hv
    rcases hc : t.creditCard with _ | c <;> rw [hc] at hv
    · simp at hv
    · simp only [Option.map_some'] at hv
      injection hv with hv
      subst hv
      refine ⟨ccVaultJson_customerId c t.customer,
              fun _ => ccVaultJson_no_paymentType c t.customer, ?_, ?_, ?_⟩
        <;> intro hcc
        <;> rw [h1] at hcc <;> simp at hcc
  · replace h1 : ccVaulted t = false := by
      rcases hb : ccVaulted t with _ | _
      · rfl
      · exact absurd hb h1
    by_cases h2 : paypalVaulted t = true
    · have hv := (vaultedPaymentMethod_cases t).2.1 h1 h2
      rw [h] at hv
      rcases hc : t.paypal with _ | p <;> rw [hc] at hv
      · simp at hv
      · simp only [Option.map_some'] at hv
        injection hv with hv
        subst hv
        refine ⟨paypalVaultJson_customerId p t.customer, ?_,
                fun _ _ => paypalVaultJson_paymentType p t.customer, ?_, ?_⟩
        · intro hcc; rw [h1] at hcc; simp at hcc
        · intro _ hpp; rw [h2] at hpp; simp at hpp
        · intro _ hpp; rw [h2] at hpp; simp at hpp
    · replace h2 : paypalVaulted t = false := by
        rcases hb : paypalVaulted t with _ | _
        · rfl
        · exact absurd hb h2
      by_cases h3 : venmoVaulted t = true
      · have hv := (vaultedPaymentMethod_cases t).2.2.1 h1 h2 h3
        rw [h] at hv
        rcases hc : t.venmoAccount with _ | v <;> rw [hc] at hv
        · simp at hv
        · simp only [Option.map_some'] at hv
          injection hv with hv
          subst hv
          refine ⟨venmoVaultJson_customerId v t.customer, ?_, ?_,
                  fun _ _ _ => venmoVaultJson_paymentType v t.customer, ?_⟩
          · intro hcc; rw [h1] at hcc; simp at hcc
          · intro _ hpp; rw [h2] at hpp; simp at hpp
          · intro _ _ hvv; rw [h3] at hvv; simp at hvv
      · replace h3 : venmoVaulted t = false := by
          rcases hb : venmoVaulted t with _ | _
          · rfl
          · exact absurd hb h3
        by_cases h4 : androidPayVaulted t = true
        · have hv := (vaultedPaymentMethod_cases t).2.2.2.1 h1 h2 h3 h4
          rw [h] at hv
          rcases hc : t.androidPayCard with _ | a <;> rw [hc] at hv
          · simp at hv
          · simp only [Option.map_some'] at hv
            injection hv with hv
            subst hv
            refine ⟨androidPayVaultJson_customerId a t.customer, ?_, ?_, ?_,
                    fun _ _ _ _ => androidPayVaultJson_paymentType a t.customer⟩
            · intro hcc; rw [h1] at hcc; simp at hcc
            · intro _ hpp; rw [h2] at hpp; simp at hpp
            · intro _ _ hvv; rw [h3] at hvv; simp at hvv
        · replace h4 : androidPayVaulted t = false := by
            rcases hb : androidPayVaulted t with _ | _
            · rfl
            · exact absurd hb h4
          have hv := (vaultedPaymentMethod_cases t).2.2.2.2 h1 h2 h3 h4
          rw [h] at hv
          simp at hv

/-- Witness for C10 at a concrete credit-card outcome with a customer:
customerId is the customer id and no paymentType tag is present. -/
theorem c10_variant_tagging_witness :
    Json.lookup (ccVaultJson ccSample txCC.customer) "customerId"
        = some (customerIdJson txCC.customer)
      ∧ Json.lookup (ccVaultJson ccSample txCC.customer) "paymentType" = none :=
  ⟨(c10_variant_tagging txCC (ccVaultJson ccSample txCC.customer) rfl).1,
   (c10_variant_tagging txCC (ccVaultJson ccSample txCC.customer) rfl).2.1 rfl⟩

/-- Defaulting against the empty string is the identity on present
values. -/
theorem jsOr_empty (v : Option String) : jsOr v "" = v.getD "" := by
  rcases v with _ | s
  · rfl
  · by_cases hs : s = "" <;> simp [jsOr, hs]

/-- C4 counterexample: a vaulting request with no billing address and
paymentMethodType 'Venmo' gets the hard-coded PayPal/Customer names, not
the 'Venmo Customer'-style name the claim derives from the instrument
type. -/
theorem c4_counterexample_venmo_hint :
    (buildTransactionData reqVenmoNoAddr).customer
        = some { firstName := "PayPal", lastName := "Customer" }
      ∧ (buildTransactionData reqVenmoNoAddr).customer
          ≠ some (claimFallbackCustomer "Venmo") := by
  exact ⟨rfl, by decide⟩

/-- C4 amended: with vaultPaymentMethod true, a present billing address
yields customer names firstName-or-'Customer' and lastName-or-empty,
exactly as claimed; with no billing address the placeholder customer is
always {firstName:'PayPal', lastName:'Customer'}, whatever the request's
paymentMethodType. -/
theorem c4_customer_synthesis (req : SaleRequest)
    (h : req.vaultPaymentMethod = true) :
    (∀ addr : BillingAddress, req.billingAddress = some addr →
       (buildTransactionData req).customer
         = some { firstName := jsOr addr.firstName "Customer"
                  lastName := addr.lastName.getD "" })
    ∧ (req.billingAddress = none →
       (buildTransactionData req).customer
         = some { firstName := "PayPal", lastName := "Customer" }) := by
  constructor
  · intro addr haddr
    simp [buildTransactionData, h, haddr, jsOr_empty]
  · intro hnone
    simp [buildTransactionData, h, hnone]

/-- Witness for C4 (amended) at concrete requests, one per branch. -/
theorem c4_customer_synthesis_witness :
    (buildTransactionData reqVaulted).customer
        = some { firstName := "Jane", lastName := "Doe" }
      ∧ (buildTransactionData reqVenmoNoAddr).customer
          = some { firstName := "PayPal", lastName := "Customer" } :=
  ⟨(c4_customer_synthesis reqVaulted rfl).1 ⟨some "Jane", some "Doe"⟩ rfl,
   (c4_customer_synthesis reqVenmoNoAddr rfl).2 rfl⟩

/-- C5 (bug evidence): a whitespace-only amount string is not a numeric
amount (parseFloat gives NaN; its Number coercion is 0, which is not
positive), yet it passes the guard, because isNaN('   ') is false (Number
coerces whitespace to 0) while parseFloat('   ') is NaN and NaN <= 0 is
false.  The gateway IS invoked, with the literal amount 'NaN'. -/
theorem c5_whitespace_amount_reaches_gateway :
    jsStringToNumber "   " = some 0
      ∧ jsParseFloat "   " = none
      ∧ validateRequest reqWhitespaceAmount = none
      ∧ (handleSale reqWhitespaceAmount (.error .null)).gatewayCalled = true
      ∧ (buildTransactionData reqWhitespaceAmount).amount = "NaN" :=
  ⟨rfl, rfl, rfl, rfl, rfl⟩

/-- C7 counterexample: for a successful PayPal outcome, the response's
transaction object additionally carries the raw paypal sub-object, so it
does not hold only id, status and amount. -/
theorem c7_counterexample_paypal_echo :
    Json.lookup (transactionJson txPaypal) "paypal"
        = some (PaypalDetails.toJson ppSample)
      ∧ Json.keys (transactionJson txPaypal) ≠ ["id", "status", "amount"] :=
  ⟨rfl, by decide⟩

/-- C7 amended: the success response is {success: true, transaction,
vaultedPaymentMethod?}, where the transaction object carries id, status
and amount, plus a verbatim echo of the raw PayPal sub-object under
'paypal' whenever the outcome has one (the field is dropped from the JSON
otherwise), and nothing else. -/
theorem c7_response_shape (t : TransactionRecord) :
    Json.lookup (successResponse t) "success" = some (.bool true)
    ∧ Json.lookup (successResponse t) "transaction" = some (transactionJson t)
    ∧ Json.lookup (successResponse t) "vaultedPaymentMethod"
        = vaultedPaymentMethod t
    ∧ Json.keys (successResponse t)
        = ["success", "transaction"]
          ++ (if (vaultedPaymentMethod t).isSome then
                ["vaultedPaymentMethod"] else [])
    ∧ Json.keys (transactionJson t)
        = ["id", "status", "amount"]
          ++ (if t.paypal.isSome then ["paypal"] else [])
    ∧ Json.lookup (transactionJson t) "id" = some (.str t.id)
    ∧ Json.lookup (transactionJson t) "status" = some (.str t.status)
    ∧ Json.lookup (transactionJson t) "amount" = some (.str t.amount)
    ∧ Json.lookup (transactionJson t) "paypal"
        = Option.map PaypalDetails.toJson t.paypal := by
  rcases hp : t.paypal with _ | p <;>
    rcases hv : vaultedPaymentMethod t with _ | v <;>
      simp [successResponse, transactionJson, Json.lookup, Json.keys, hp, hv,
            List.lookup]

/-- The two-digit pad always renders two decimal digit characters. -/
theorem pad2_two_digits : ∀ k < 100,
    (pad2 k).data.length = 2
      ∧ (pad2 k).data.all (fun c => c.isDigit && !(c == '.')) = true := by
  decide

/-- A string whose character data ends in a dot followed by two decimal
digits satisfies the two-decimal shape predicate. -/
theorem hasTwo_data (s : String) (l : List Char) (a b : Char)
    (hs : s.data = l ++ '.' :: [a, b]) (ha : a.isDigit = true)
    (hb : b.isDigit = true) (hna : a ≠ '.') (hnb : b ≠ '.') :
    hasExactlyTwoDecimalDigits s = true := by
  have hna' : (a == '.') = false := by simp [hna]
  have hnb' : (b == '.') = false := by simp [hnb]
  unfold hasExactlyTwoDecimalDigits fracPart
  rw [hs]
  simp [List.any_append, List.takeWhile, hna', hnb', ha, hb]

/-- Any prefix followed by `formatCents` renders with exactly two decimal
digits. -/
theorem hasTwo_formatCents (pre : String) (n : Nat) :
    hasExactlyTwoDecimalDigits (pre ++ formatCents n) = true := by
  have hk : n % 100 < 100 := Nat.mod_lt _ (by norm_num)
  obtain ⟨hlen, hall⟩ := pad2_two_digits (n % 100) hk
  obtain ⟨a, b, hab⟩ := List.length_eq_two.mp hlen
  rw [hab] at hall
  simp only [List.all_cons, List.all_nil, Bool.and_true, Bool.and_eq_true,
             Bool.not_eq_true', beq_eq_false_iff_ne, ne_eq] at hall
  refine hasTwo_data _ (pre.data ++ (toString (n / 100)).data) a b ?_
    hall.1.1 hall.2.1 hall.1.2 hall.2.2
  rw [String.data_append, formatCents, String.data_append,
      String.data_append, hab]
  simp

/-- Below the `10^21` threshold, `toFixed(2)` renders with exactly two
decimal digits. -/
theorem hasTwo_toFixed2 (q : ℚ) (h : belowFixedLimit q = true) :
    hasExactlyTwoDecimalDigits (toFixed2 q) = true := by
  unfold belowFixedLimit at h
  unfold toFixed2
  rw [if_neg (not_le.mpr (of_decide_eq_true h))]
  exact hasTwo_formatCents _ _

/-- C6 counterexample: the decimal amount `10^21` passes validation, yet
the built amount string is the exponential '1e+21' (ECMA toFixed falls
back to ToString at `10^21`), which has no two-digit decimal fraction. -/
theorem c6_counterexample_large_amount :
    validateRequest reqHugeAmount = none
      ∧ (buildTransactionData reqHugeAmount).amount = "1e+21"
      ∧ hasExactlyTwoDecimalDigits
          ((buildTransactionData reqHugeAmount).amount) = false := by
  refine ⟨by decide, by decide, by decide⟩

/-- C6 amended: for every request passing validation whose amount parses
to a number (the JS non-NaN case) of magnitude below `10^21`, the
Builder's output amount string has exactly two decimal digits (at or
above `10^21`, toFixed falls back to exponential ToString notation); in
particular '10' renders as '10.00' and '9.999' rounds (not truncates) to
'10.00'. -/
theorem c6_amount_two_decimals :
    (∀ (req : SaleRequest) (q : ℚ), validateRequest req = none →
       req.amount.jsParseFloatA = some q → belowFixedLimit q = true →
       hasExactlyTwoDecimalDigits ((buildTransactionData req).amount) = true)
    ∧ amountToFixed2 (.str "10") = "10.00"
    ∧ amountToFixed2 (.str "9.999") = "10.00" := by
  refine ⟨?_, by decide, by decide⟩
  intro req q _ hq hb
  show hasExactlyTwoDecimalDigits (amountToFixed2 req.amount) = true
  simp only [amountToFixed2, hq]
  exact hasTwo_toFixed2 q hb

/-- Witness for C6 (amended) at a concrete valid request with amount
'25'. -/
theorem c6_amount_two_decimals_witness :
    hasExactlyTwoDecimalDigits ((buildTransactionData reqPlain).amount) = true :=
  c6_amount_two_decimals.1 reqPlain 25 (by decide) (by decide) (by decide)

end BTSample
